import Mathlib

/-!
Verification of the sqlparser repository slice: the generic tokenizer
(`src/generic_tokenizer.rs`), the `CREATE TABLE` builder
(`src/ast/helpers/stmt_create_table.rs`), and the DDL AST with its
serializer (`src/ast/ddl.rs`).  Rust `String`s of source characters are
modelled as `List Char` where proofs walk them character by character and
as Lean `String` where they are only carried; `Vec<T>` is `List T`;
`Option<T>` is `Option T`; `Result<T, E>` is `Except E T`.
-/

namespace SqlparserRs

/-! ## Tokenizer data model

The types `Position`, `SQLToken` and `TokenizerError` are declared in
`src/tokenizer.rs`, which is not part of the visible sources; only their
use sites in `src/generic_tokenizer.rs` are.  They are modelled from the
spec (section 4.2 and the error surface of section 6) and from those use
sites. -/

/-- Modelled from the spec: a source position `(line, column)` as carried by
tokenizer errors (`TokenizerError { message, line, column }`, spec section 6);
`tokenizer.rs` itself is not in the visible sources. -/
structure Position where
  line : Nat
  col : Nat
deriving DecidableEq, Repr

/-- Constructor mirroring `Position::new(line, col)` as called in
`generic_tokenizer.rs`. -/
def Position.new (line col : Nat) : Position := ⟨line, col⟩

/-- Modelled from the spec: the token shape consumed by
`GenericTokenizer::next_token` (whitespace / literal / the four arithmetic
operators), per its match arms in `src/generic_tokenizer.rs` and the spec's
note (section 9) that the generic tokenizer exposes this minimal token shape.
The Rust `Literal(String)` payload is modelled as the list of its
characters. -/
inductive SQLToken where
  | Whitespace (c : Char)
  | Literal (s : List Char)
  | Plus
  | Minus
  | Mult
  | Divide
deriving DecidableEq, Repr

/-- Modelled from the spec: the tokenizer error variant produced by
`GenericTokenizer::next_token` — an unexpected character together with a
position (spec sections 4.2 and 7: "invalid character", "each error carries
the span where detection occurred"). -/
inductive TokenizerError where
  | UnexpectedChar (c : Char) (pos : Position)
deriving DecidableEq, Repr

/-- The whitespace test of `next_token`'s first match arm:
`' ' | '\t' | '\n'`. -/
def isWhitespaceCh (c : Char) : Bool :=
  c = ' ' || c = '\t' || c = '\n'

/-- The digit test of `next_token`'s range pattern `'0' ... '9'`. -/
def isDigitCh (c : Char) : Bool :=
  '0' ≤ c && c ≤ '9'

/-- The inner `while let Some(&ch) = chars.peek()` loop of `next_token`:
consume the longest run of ASCII digits, returning the consumed digits and
the unconsumed remainder of the stream. -/
def takeDigits : List Char → List Char × List Char
  | [] => ([], [])
  | c :: cs =>
    if isDigitCh c then
      let (ds, rest) := takeDigits cs
      (c :: ds, rest)
    else
      ([], c :: cs)

/-- `GenericTokenizer::next_token` from `src/generic_tokenizer.rs`.  The
`Peekable<Chars>` cursor is modelled by passing the character list in and
returning the unconsumed remainder alongside the result. -/
def next_token (chars : List Char) :
    Except TokenizerError (Option SQLToken) × List Char :=
  match chars with
  | [] => (Except.ok none, [])
  | ch :: cs =>
    if isWhitespaceCh ch then
      (Except.ok (some (SQLToken.Whitespace ch)), cs)
    else if isDigitCh ch then
      let (ds, rest) := takeDigits cs
      (Except.ok (some (SQLToken.Literal (ch :: ds))), rest)
    else if ch = '+' then
      (Except.ok (some SQLToken.Plus), cs)
    else if ch = '-' then
      (Except.ok (some SQLToken.Minus), cs)
    else if ch = '*' then
      (Except.ok (some SQLToken.Mult), cs)
    else if ch = '/' then
      (Except.ok (some SQLToken.Divide), cs)
    else
      (Except.error (TokenizerError.UnexpectedChar ch (Position.new 0 0)), cs)

/-- The `(line, column)` at which the character of index `i` occurs in a
source character stream, lines and columns counted from zero: the line is
the number of newline characters strictly before index `i`, the column the
number of characters since the last newline.  This is the "position at which
the character was detected in the source" that the spec's error contract
refers to. -/
def posOfIndex : List Char → Nat → Position
  | _, 0 => Position.new 0 0
  | [], _ + 1 => Position.new 0 0
  | c :: cs, i + 1 =>
    let p := posOfIndex cs i
    if c = '\n' then Position.new (p.line + 1) p.col
    else if p.line = 0 then Position.new 0 (p.col + 1)
    else p

/-! ## AST data model

`Ident`, `ObjectName`, `Expr`, `DataType` and the statement enum live in AST
modules that are not part of the visible sources (`ast/mod.rs`, `ast/dml.rs`,
`ast/data_type.rs`, `ast/query.rs`); they are modelled from the spec
(section 3) and from their use sites in the visible files.  Types whose
internal structure no claim inspects are modelled as opaque carriers with a
single distinguishing payload, so that distinct Rust values stay distinct in
the model. -/

/-- Modelled from the spec (section 3): an identifier is a pair of a value and
an optional quote style (`"`, backquote, `[`, or none). -/
structure Ident where
  value : String
  quote_style : Option Char
deriving DecidableEq, Repr

/-- `Ident::new`: an identifier with no quote style. -/
def Ident.new (value : String) : Ident := ⟨value, none⟩

/-- Modelled from the spec (section 4.4): identifiers are emitted with their
recorded quote style; a `[` opens and `]` closes.  Re-escaping of embedded
quote characters by doubling is elided: no claim exercises an identifier
containing its own quote character. -/
def displayIdent (i : Ident) : String :=
  match i.quote_style with
  | some '[' => "[" ++ i.value ++ "]"
  | some q => String.singleton q ++ i.value ++ String.singleton q
  | none => i.value

/-- Modelled from the spec: `ObjectName`, a dotted sequence of identifiers, as
used in the visible tests (`ObjectName(vec![...])`). -/
structure ObjectName where
  parts : List Ident
deriving DecidableEq, Repr

/-- `ObjectName::from(vec![...])`. -/
def ObjectName.from (parts : List Ident) : ObjectName := ⟨parts⟩

/-- Modelled from the spec (section 4.4): an object name renders its parts
separated by `.`. -/
def displayObjectName (n : ObjectName) : String :=
  String.intercalate "." (n.parts.map displayIdent)

/-- Modelled from the spec (section 3): the expression sum type, restricted to
the variants the claims mention — a plain identifier and a compound (dotted)
identifier. -/
inductive Expr where
  | Identifier (i : Ident)
  | CompoundIdentifier (parts : List Ident)
deriving DecidableEq, Repr

/-- Modelled from the spec: the `DataType` enum of `ast/data_type.rs` (not in
the visible sources), restricted to the variants the claims exercise:
`Unspecified` (tested by `ColumnDef`'s serializer) and `Int(Option<u64>)`
(the builder doc example's `c1 INT` column). -/
inductive DataType where
  | Unspecified
  | Int (width : Option Nat)
deriving DecidableEq, Repr

/-- Modelled from the spec (section 4.4): `INT` with an optional display
width. -/
def displayDataType : DataType → String
  | DataType.Unspecified => ""
  | DataType.Int none => "INT"
  | DataType.Int (some n) => "INT(" ++ toString n ++ ")"

/-- The `ColumnOption` enum of `ast/ddl.rs` has dozens of variants, none of
which any claim inspects; it is abstracted as its rendered text. -/
structure ColumnOption where
  text : String
deriving DecidableEq, Repr

/-- `ColumnOptionDef` from `ast/ddl.rs`: an optionally named column option. -/
structure ColumnOptionDef where
  name : Option Ident
  option : ColumnOption
deriving DecidableEq, Repr

/-- `impl Display for ColumnOptionDef` (`ast/ddl.rs`): the constraint name
(followed by a space) when present, then the option. -/
def displayColumnOptionDef (d : ColumnOptionDef) : String :=
  (match d.name with
   | some n => "CONSTRAINT " ++ displayIdent n ++ " "
   | none => "") ++ d.option.text

/-- `ColumnDef` from `ast/ddl.rs`. -/
structure ColumnDef where
  name : Ident
  data_type : DataType
  options : List ColumnOptionDef
deriving DecidableEq, Repr

/-- `impl Display for ColumnDef` (`ast/ddl.rs`): the name alone when the data
type is `Unspecified`, otherwise `name type`, then each option preceded by a
space. -/
def displayColumnDef (c : ColumnDef) : String :=
  (if c.data_type = DataType.Unspecified then displayIdent c.name
   else displayIdent c.name ++ " " ++ displayDataType c.data_type) ++
  String.join (c.options.map (fun o => " " ++ displayColumnOptionDef o))

/-- The `TableConstraint` enum of `ast/ddl.rs` has seven variants with large
payloads, none of which any claim inspects; it is abstracted as its rendered
text. -/
structure TableConstraint where
  text : String
deriving DecidableEq, Repr

/-- `DropBehavior` from `ast/ddl.rs`: `CASCADE | RESTRICT`. -/
inductive DropBehavior where
  | Restrict
  | Cascade
deriving DecidableEq, Repr

/-- `impl Display for DropBehavior` (`ast/ddl.rs`). -/
def displayDropBehavior : DropBehavior → String
  | DropBehavior.Restrict => "RESTRICT"
  | DropBehavior.Cascade => "CASCADE"

/-- `AlterTableOperation` from `ast/ddl.rs`, restricted to the variants the
claims mention (the Rust enum has some sixty further variants, none of which
any claim names): `DROP CONSTRAINT [IF EXISTS] <name> [CASCADE|RESTRICT]`,
`DROP PRIMARY KEY`, and `DISABLE ROW LEVEL SECURITY`. -/
inductive AlterTableOperation where
  | DropConstraint (if_exists : Bool) (name : Ident)
      (drop_behavior : Option DropBehavior)
  | DropPrimaryKey
  | DisableRowLevelSecurity
deriving DecidableEq, Repr

/-- `impl Display for AlterTableOperation` (`ast/ddl.rs`), the arms for the
modelled variants: the `DropConstraint` arm writes
`DROP CONSTRAINT {if_exists}{name}{drop_behavior}` with `"IF EXISTS "` when
`if_exists`, and `" CASCADE"` / `" RESTRICT"` for a present drop behavior. -/
def displayAlterTableOperation : AlterTableOperation → String
  | AlterTableOperation.DropConstraint if_exists name drop_behavior =>
      "DROP CONSTRAINT " ++ (if if_exists then "IF EXISTS " else "") ++
        displayIdent name ++
        (match drop_behavior with
         | none => ""
         | some DropBehavior.Restrict => " RESTRICT"
         | some DropBehavior.Cascade => " CASCADE")
  | AlterTableOperation.DropPrimaryKey => "DROP PRIMARY KEY"
  | AlterTableOperation.DisableRowLevelSecurity => "DISABLE ROW LEVEL SECURITY"

/-! ## CREATE TABLE statement and builder

`CreateTableBuilder` and its operations are in the visible
`src/ast/helpers/stmt_create_table.rs`.  The payload types of its fields are
declared in AST modules outside the visible sources; each is modelled below
as an opaque carrier with one distinguishing payload (no claim inspects
their internals, but distinct values must stay distinct so that a misrouted
field would be observable). -/

/-- Modelled from the spec: the `Query` AST (`ast/query.rs`, not in the
visible sources); opaque carrier. -/
structure Query where
  id : Nat
deriving DecidableEq, Repr

/-- Modelled from the spec: `HiveFormat` (not in the visible sources); opaque
carrier. -/
structure HiveFormat where
  id : Nat
deriving DecidableEq, Repr

/-- Modelled from the spec: the `FileFormat` enum (not in the visible
sources); opaque carrier. -/
structure FileFormat where
  id : Nat
deriving DecidableEq, Repr

/-- Modelled from the spec: `CommentDef` (not in the visible sources); opaque
carrier. -/
structure CommentDef where
  id : Nat
deriving DecidableEq, Repr

/-- Modelled from the spec: the `OnCommit` enum (not in the visible sources);
opaque carrier. -/
structure OnCommit where
  id : Nat
deriving DecidableEq, Repr

/-- Modelled from the spec: `RowAccessPolicy` (not in the visible sources);
opaque carrier. -/
structure RowAccessPolicy where
  id : Nat
deriving DecidableEq, Repr

/-- Modelled from the spec: `Tag` (not in the visible sources); opaque
carrier. -/
structure Tag where
  id : Nat
deriving DecidableEq, Repr

/-- Modelled from the spec: the `StorageSerializationPolicy` enum (not in the
visible sources); opaque carrier. -/
structure StorageSerializationPolicy where
  id : Nat
deriving DecidableEq, Repr

/-- Modelled from the spec: `SqlOption` (not in the visible sources); opaque
carrier. -/
structure SqlOption where
  id : Nat
deriving DecidableEq, Repr

/-- Modelled from the spec: a transaction modifier on `COMMIT` (not in the
visible sources); opaque carrier. -/
structure TransactionModifier where
  id : Nat
deriving DecidableEq, Repr

/-- Modelled from the spec: `ClusteredBy` (`ast/ddl.rs` declares it, but its
payload types `Value` and `OrderByExpr` are not in the visible sources);
opaque carrier. -/
structure ClusteredBy where
  id : Nat
deriving DecidableEq, Repr

/-- Modelled from the spec: `HiveDistributionStyle` (not in the visible
sources): `NONE` (the builder default) or `PARTITIONED` with columns. -/
inductive HiveDistributionStyle where
  | NONE
  | PARTITIONED (columns : List ColumnDef)
deriving DecidableEq, Repr

/-- Modelled from the spec: `OneOrManyWithParens<T>` (not in the visible
sources): one bare value or a parenthesized list. -/
inductive OneOrManyWithParens (α : Type) where
  | One (value : α)
  | Many (values : List α)
deriving DecidableEq, Repr

/-- Modelled from the spec: `WrappedCollection<T>` (not in the visible
sources): a collection with or without surrounding parentheses. -/
inductive WrappedCollection (α : Type) where
  | NoWrapping (value : α)
  | Parentheses (value : α)
deriving DecidableEq, Repr

/-- Modelled from the spec: `CreateTableOptions` (not in the visible
sources): no options (the builder default), a `WITH (...)` list, or an
`OPTIONS(...)` list. -/
inductive CreateTableOptions where
  | None
  | With (options : List SqlOption)
  | Options (options : List SqlOption)
deriving DecidableEq, Repr

/-- The `CreateTable` struct (`ast/dml.rs`, not in the visible sources); its
complete field list is visible in `CreateTableBuilder::build` and the
`TryFrom` destructuring pattern of `src/ast/helpers/stmt_create_table.rs`,
from which this is transcribed. -/
structure CreateTable where
  or_replace : Bool
  temporary : Bool
  external : Bool
  global : Option Bool
  if_not_exists : Bool
  transient : Bool
  volatile : Bool
  iceberg : Bool
  name : ObjectName
  columns : List ColumnDef
  constraints : List TableConstraint
  hive_distribution : HiveDistributionStyle
  hive_formats : Option HiveFormat
  file_format : Option FileFormat
  location : Option String
  query : Option Query
  without_rowid : Bool
  like : Option ObjectName
  clone : Option ObjectName
  comment : Option CommentDef
  on_commit : Option OnCommit
  on_cluster : Option Ident
  primary_key : Option Expr
  order_by : Option (OneOrManyWithParens Expr)
  partition_by : Option Expr
  cluster_by : Option (WrappedCollection (List Expr))
  clustered_by : Option ClusteredBy
  inherits : Option (List ObjectName)
  strict : Bool
  copy_grants : Bool
  enable_schema_evolution : Option Bool
  change_tracking : Option Bool
  data_retention_time_in_days : Option Nat
  max_data_extension_time_in_days : Option Nat
  default_ddl_collation : Option String
  with_aggregation_policy : Option ObjectName
  with_row_access_policy : Option RowAccessPolicy
  with_tags : Option (List Tag)
  base_location : Option String
  external_volume : Option String
  catalog : Option String
  catalog_sync : Option String
  storage_serialization_policy : Option StorageSerializationPolicy
  table_options : CreateTableOptions
deriving DecidableEq, Repr

/-- Modelled from the spec: the `Statement` sum type (section 3), restricted
to the variants the visible sources use — `CreateTable` (produced by the
builder) and `Commit` (the non-CREATE-TABLE statement of the visible builder
test), the latter standing in for the hundred-odd remaining variants. -/
inductive Statement where
  | CreateTable (ct : CreateTable)
  | Commit (chain : Bool) («end» : Bool) (modifier : Option TransactionModifier)
deriving DecidableEq, Repr

/-- Whether a statement is a `Statement::CreateTable`. -/
def isCreateTable : Statement → Bool
  | Statement.CreateTable _ => true
  | _ => false

/-- Modelled from the spec (section 4.4 canonicalization and scenario S4):
the serializer of a `CreateTable` statement (`ast/dml.rs`, not in the visible
sources).  Keyword prefixes are emitted for the boolean modifiers, then
`TABLE [IF NOT EXISTS] name`, then the parenthesized comma-separated columns
and constraints when any are present.  Clauses no claim exercises (query,
like, clone, options, ...) are elided. -/
def displayCreateTable (ct : CreateTable) : String :=
  "CREATE " ++
  (if ct.or_replace then "OR REPLACE " else "") ++
  (if ct.volatile then "VOLATILE " else "") ++
  (if ct.external then "EXTERNAL " else "") ++
  (match ct.global with
   | some true => "GLOBAL "
   | some false => "LOCAL "
   | none => "") ++
  (if ct.temporary then "TEMPORARY " else "") ++
  (if ct.transient then "TRANSIENT " else "") ++
  (if ct.iceberg then "ICEBERG " else "") ++
  "TABLE " ++
  (if ct.if_not_exists then "IF NOT EXISTS " else "") ++
  displayObjectName ct.name ++
  (if ct.columns.isEmpty && ct.constraints.isEmpty then ""
   else " (" ++
     String.intercalate ", "
       (ct.columns.map displayColumnDef ++ ct.constraints.map TableConstraint.text)
     ++ ")")

/-- Modelled from the spec: the serializer of the statement enum
(`ast/mod.rs`, not in the visible sources).  `Commit { chain: false, end:
false, modifier: None }` renders as `COMMIT`, as asserted by the visible
builder test `test_from_invalid_statement`. -/
def displayStatement : Statement → String
  | Statement.CreateTable ct => displayCreateTable ct
  | Statement.Commit chain endTx _ =>
      (if endTx then "END" else "COMMIT") ++ (if chain then " AND CHAIN" else "")

/-- `ParserError` from `src/parser/mod.rs` (only this constructor is used by
the visible sources). -/
inductive ParserError where
  | ParserError (msg : String)
deriving DecidableEq, Repr

/-- `CreateTableBuilder` from `src/ast/helpers/stmt_create_table.rs`: the
mutable staging object for `CREATE TABLE`, one field per clause. -/
structure CreateTableBuilder where
  or_replace : Bool
  temporary : Bool
  external : Bool
  global : Option Bool
  if_not_exists : Bool
  transient : Bool
  volatile : Bool
  iceberg : Bool
  name : ObjectName
  columns : List ColumnDef
  constraints : List TableConstraint
  hive_distribution : HiveDistributionStyle
  hive_formats : Option HiveFormat
  file_format : Option FileFormat
  location : Option String
  query : Option Query
  without_rowid : Bool
  like : Option ObjectName
  clone : Option ObjectName
  comment : Option CommentDef
  on_commit : Option OnCommit
  on_cluster : Option Ident
  primary_key : Option Expr
  order_by : Option (OneOrManyWithParens Expr)
  partition_by : Option Expr
  cluster_by : Option (WrappedCollection (List Expr))
  clustered_by : Option ClusteredBy
  inherits : Option (List ObjectName)
  strict : Bool
  copy_grants : Bool
  enable_schema_evolution : Option Bool
  change_tracking : Option Bool
  data_retention_time_in_days : Option Nat
  max_data_extension_time_in_days : Option Nat
  default_ddl_collation : Option String
  with_aggregation_policy : Option ObjectName
  with_row_access_policy : Option RowAccessPolicy
  with_tags : Option (List Tag)
  base_location : Option String
  external_volume : Option String
  catalog : Option String
  catalog_sync : Option String
  storage_serialization_policy : Option StorageSerializationPolicy
  table_options : CreateTableOptions
deriving DecidableEq, Repr

/-- `CreateTableBuilder::new(name)`: every flag false, every optional clause
absent, empty columns and constraints, `NONE` hive distribution, no table
options. -/
def CreateTableBuilder.new (name : ObjectName) : CreateTableBuilder where
  or_replace := false
  temporary := false
  external := false
  global := none
  if_not_exists := false
  transient := false
  volatile := false
  iceberg := false
  name := name
  columns := []
  constraints := []
  hive_distribution := HiveDistributionStyle.NONE
  hive_formats := none
  file_format := none
  location := none
  query := none
  without_rowid := false
  like := none
  clone := none
  comment := none
  on_commit := none
  on_cluster := none
  primary_key := none
  order_by := none
  partition_by := none
  cluster_by := none
  clustered_by := none
  inherits := none
  strict := false
  copy_grants := false
  enable_schema_evolution := none
  change_tracking := none
  data_retention_time_in_days := none
  max_data_extension_time_in_days := none
  default_ddl_collation := none
  with_aggregation_policy := none
  with_row_access_policy := none
  with_tags := none
  base_location := none
  external_volume := none
  catalog := none
  catalog_sync := none
  storage_serialization_policy := none
  table_options := CreateTableOptions.None

/-! The fluent setters of `CreateTableBuilder`
(`src/ast/helpers/stmt_create_table.rs`, lines 163-384).  Each consumes the
builder, assigns its one field and returns the builder.  They live in their
own namespace because the Lean field projections already carry the plain
names. -/

namespace Setters

def or_replace (self : CreateTableBuilder) (or_replace : Bool) :
    CreateTableBuilder := { self with or_replace := or_replace }

def temporary (self : CreateTableBuilder) (temporary : Bool) :
    CreateTableBuilder := { self with temporary := temporary }

def external (self : CreateTableBuilder) (external : Bool) :
    CreateTableBuilder := { self with external := external }

def global (self : CreateTableBuilder) (global : Option Bool) :
    CreateTableBuilder := { self with global := global }

def if_not_exists (self : CreateTableBuilder) (if_not_exists : Bool) :
    CreateTableBuilder := { self with if_not_exists := if_not_exists }

def transient (self : CreateTableBuilder) (transient : Bool) :
    CreateTableBuilder := { self with transient := transient }

def volatile (self : CreateTableBuilder) (volatile : Bool) :
    CreateTableBuilder := { self with volatile := volatile }

def iceberg (self : CreateTableBuilder) (iceberg : Bool) :
    CreateTableBuilder := { self with iceberg := iceberg }

def columns (self : CreateTableBuilder) (columns : List ColumnDef) :
    CreateTableBuilder := { self with columns := columns }

def constraints (self : CreateTableBuilder) (constraints : List TableConstraint) :
    CreateTableBuilder := { self with constraints := constraints }

def hive_distribution (self : CreateTableBuilder)
    (hive_distribution : HiveDistributionStyle) :
    CreateTableBuilder := { self with hive_distribution := hive_distribution }

def hive_formats (self : CreateTableBuilder) (hive_formats : Option HiveFormat) :
    CreateTableBuilder := { self with hive_formats := hive_formats }

def file_format (self : CreateTableBuilder) (file_format : Option FileFormat) :
    CreateTableBuilder := { self with file_format := file_format }

def location (self : CreateTableBuilder) (location : Option String) :
    CreateTableBuilder := { self with location := location }

def query (self : CreateTableBuilder) (query : Option Query) :
    CreateTableBuilder := { self with query := query }

def without_rowid (self : CreateTableBuilder) (without_rowid : Bool) :
    CreateTableBuilder := { self with without_rowid := without_rowid }

def like (self : CreateTableBuilder) (like : Option ObjectName) :
    CreateTableBuilder := { self with like := like }

def clone_clause (self : CreateTableBuilder) (clone : Option ObjectName) :
    CreateTableBuilder := { self with clone := clone }

def comment_after_column_def (self : CreateTableBuilder)
    (comment : Option CommentDef) :
    CreateTableBuilder := { self with comment := comment }

def on_commit (self : CreateTableBuilder) (on_commit : Option OnCommit) :
    CreateTableBuilder := { self with on_commit := on_commit }

def on_cluster (self : CreateTableBuilder) (on_cluster : Option Ident) :
    CreateTableBuilder := { self with on_cluster := on_cluster }

def primary_key (self : CreateTableBuilder) (primary_key : Option Expr) :
    CreateTableBuilder := { self with primary_key := primary_key }

def order_by (self : CreateTableBuilder)
    (order_by : Option (OneOrManyWithParens Expr)) :
    CreateTableBuilder := { self with order_by := order_by }

def partition_by (self : CreateTableBuilder) (partition_by : Option Expr) :
    CreateTableBuilder := { self with partition_by := partition_by }

def cluster_by (self : CreateTableBuilder)
    (cluster_by : Option (WrappedCollection (List Expr))) :
    CreateTableBuilder := { self with cluster_by := cluster_by }

def clustered_by (self : CreateTableBuilder) (clustered_by : Option ClusteredBy) :
    CreateTableBuilder := { self with clustered_by := clustered_by }

def inherits (self : CreateTableBuilder) (inherits : Option (List ObjectName)) :
    CreateTableBuilder := { self with inherits := inherits }

def strict (self : CreateTableBuilder) (strict : Bool) :
    CreateTableBuilder := { self with strict := strict }

def copy_grants (self : CreateTableBuilder) (copy_grants : Bool) :
    CreateTableBuilder := { self with copy_grants := copy_grants }

def enable_schema_evolution (self : CreateTableBuilder)
    (enable_schema_evolution : Option Bool) :
    CreateTableBuilder :=
  { self with enable_schema_evolution := enable_schema_evolution }

def change_tracking (self : CreateTableBuilder) (change_tracking : Option Bool) :
    CreateTableBuilder := { self with change_tracking := change_tracking }

def data_retention_time_in_days (self : CreateTableBuilder)
    (data_retention_time_in_days : Option Nat) :
    CreateTableBuilder :=
  { self with data_retention_time_in_days := data_retention_time_in_days }

def max_data_extension_time_in_days (self : CreateTableBuilder)
    (max_data_extension_time_in_days : Option Nat) :
    CreateTableBuilder :=
  { self with max_data_extension_time_in_days := max_data_extension_time_in_days }

def default_ddl_collation (self : CreateTableBuilder)
    (default_ddl_collation : Option String) :
    CreateTableBuilder :=
  { self with default_ddl_collation := default_ddl_collation }

def with_aggregation_policy (self : CreateTableBuilder)
    (with_aggregation_policy : Option ObjectName) :
    CreateTableBuilder :=
  { self with with_aggregation_policy := with_aggregation_policy }

def with_row_access_policy (self : CreateTableBuilder)
    (with_row_access_policy : Option RowAccessPolicy) :
    CreateTableBuilder :=
  { self with with_row_access_policy := with_row_access_policy }

def with_tags (self : CreateTableBuilder) (with_tags : Option (List Tag)) :
    CreateTableBuilder := { self with with_tags := with_tags }

def base_location (self : CreateTableBuilder) (base_location : Option String) :
    CreateTableBuilder := { self with base_location := base_location }

def external_volume (self : CreateTableBuilder)
    (external_volume : Option String) :
    CreateTableBuilder := { self with external_volume := external_volume }

def catalog (self : CreateTableBuilder) (catalog : Option String) :
    CreateTableBuilder := { self with catalog := catalog }

def catalog_sync (self : CreateTableBuilder) (catalog_sync : Option String) :
    CreateTableBuilder := { self with catalog_sync := catalog_sync }

def storage_serialization_policy (self : CreateTableBuilder)
    (storage_serialization_policy : Option StorageSerializationPolicy) :
    CreateTableBuilder :=
  { self with storage_serialization_policy := storage_serialization_policy }

def table_options (self : CreateTableBuilder)
    (table_options : CreateTableOptions) :
    CreateTableBuilder := { self with table_options := table_options }

end Setters

/-- `CreateTableBuilder::validate_schema_info`
(`src/ast/helpers/stmt_create_table.rs`, lines 386-404): count the populated
schema sources — non-empty `columns`, present `query`, present `like`,
present `clone` — and return whether the count is exactly one. -/
def CreateTableBuilder.validate_schema_info (self : CreateTableBuilder) : Bool :=
  let sources : Nat := 0
  let sources := if !self.columns.isEmpty then sources + 1 else sources
  let sources := if self.query.isSome then sources + 1 else sources
  let sources := if self.like.isSome then sources + 1 else sources
  let sources := if self.clone.isSome then sources + 1 else sources
  sources == 1

/-- `CreateTableBuilder::build`
(`src/ast/helpers/stmt_create_table.rs`, lines 406-453): move every field
into a `CreateTable` and wrap it in `Statement::CreateTable`. -/
def CreateTableBuilder.build (self : CreateTableBuilder) : Statement :=
  Statement.CreateTable {
    or_replace := self.or_replace
    temporary := self.temporary
    external := self.external
    global := self.global
    if_not_exists := self.if_not_exists
    transient := self.transient
    volatile := self.volatile
    iceberg := self.iceberg
    name := self.name
    columns := self.columns
    constraints := self.constraints
    hive_distribution := self.hive_distribution
    hive_formats := self.hive_formats
    file_format := self.file_format
    location := self.location
    query := self.query
    without_rowid := self.without_rowid
    like := self.like
    clone := self.clone
    comment := self.comment
    on_commit := self.on_commit
    on_cluster := self.on_cluster
    primary_key := self.primary_key
    order_by := self.order_by
    partition_by := self.partition_by
    cluster_by := self.cluster_by
    clustered_by := self.clustered_by
    inherits := self.inherits
    strict := self.strict
    copy_grants := self.copy_grants
    enable_schema_evolution := self.enable_schema_evolution
    change_tracking := self.change_tracking
    data_retention_time_in_days := self.data_retention_time_in_days
    max_data_extension_time_in_days := self.max_data_extension_time_in_days
    default_ddl_collation := self.default_ddl_collation
    with_aggregation_policy := self.with_aggregation_policy
    with_row_access_policy := self.with_row_access_policy
    with_tags := self.with_tags
    base_location := self.base_location
    external_volume := self.external_volume
    catalog := self.catalog
    catalog_sync := self.catalog_sync
    storage_serialization_policy := self.storage_serialization_policy
    table_options := self.table_options }

/-- `impl TryFrom<Statement> for CreateTableBuilder`
(`src/ast/helpers/stmt_create_table.rs`, lines 456-559): a
`Statement::CreateTable` is destructured field by field into a builder
(the Rust `Ok` literal lists `volatile` and `iceberg` away from their
declaration position, which in a struct literal is irrelevant to the value);
any other statement produces a `ParserError` naming the received
statement. -/
def CreateTableBuilder.try_from :
    Statement → Except ParserError CreateTableBuilder
  | Statement.CreateTable ct =>
      Except.ok {
        or_replace := ct.or_replace
        temporary := ct.temporary
        external := ct.external
        global := ct.global
        if_not_exists := ct.if_not_exists
        transient := ct.transient
        name := ct.name
        columns := ct.columns
        constraints := ct.constraints
        hive_distribution := ct.hive_distribution
        hive_formats := ct.hive_formats
        file_format := ct.file_format
        location := ct.location
        query := ct.query
        without_rowid := ct.without_rowid
        like := ct.like
        clone := ct.clone
        comment := ct.comment
        on_commit := ct.on_commit
        on_cluster := ct.on_cluster
        primary_key := ct.primary_key
        order_by := ct.order_by
        partition_by := ct.partition_by
        cluster_by := ct.cluster_by
        clustered_by := ct.clustered_by
        inherits := ct.inherits
        strict := ct.strict
        iceberg := ct.iceberg
        copy_grants := ct.copy_grants
        enable_schema_evolution := ct.enable_schema_evolution
        change_tracking := ct.change_tracking
        data_retention_time_in_days := ct.data_retention_time_in_days
        max_data_extension_time_in_days := ct.max_data_extension_time_in_days
        default_ddl_collation := ct.default_ddl_collation
        with_aggregation_policy := ct.with_aggregation_policy
        with_row_access_policy := ct.with_row_access_policy
        with_tags := ct.with_tags
        volatile := ct.volatile
        base_location := ct.base_location
        external_volume := ct.external_volume
        catalog := ct.catalog
        catalog_sync := ct.catalog_sync
        storage_serialization_policy := ct.storage_serialization_policy
        table_options := ct.table_options }
  | stmt =>
      Except.error (ParserError.ParserError
        ("Expected create table statement, but received: " ++
          displayStatement stmt))

/-! ## SELECT data model and concrete-scenario parsers

The parser and the SELECT-side AST (`ast/query.rs`, `parser/mod.rs`,
`dialect/redshift.rs`) are not part of the visible sources; only the tests
exercising them are (`tests/sqlparser_redshift.rs`).  The fragments that the
spec's concrete scenarios S1 and S6 exercise are modelled below from the
spec's words (sections 4.2, 4.3 and 8). -/

/-- Modelled from the spec: a table alias (not in the visible sources);
opaque carrier. -/
structure TableAlias where
  id : Nat
deriving DecidableEq, Repr

/-- Modelled from the spec: table-factor function arguments (not in the
visible sources); opaque carrier. -/
structure FunctionArgs where
  id : Nat
deriving DecidableEq, Repr

/-- Modelled from the spec: a table version qualifier (not in the visible
sources); opaque carrier. -/
structure TableVersion where
  id : Nat
deriving DecidableEq, Repr

/-- Modelled from the spec: a `JOIN` operand (not in the visible sources);
opaque carrier. -/
structure Join where
  id : Nat
deriving DecidableEq, Repr

/-- Modelled from the spec: one projection item of a `SELECT`; only the
unnamed-expression variant is exercised by the claims. -/
inductive SelectItem where
  | UnnamedExpr (e : Expr)
deriving DecidableEq, Repr

/-- Modelled from the spec: a table factor (section 3), restricted to the
named-table variant, with the field list the visible Redshift test
destructures (`name`, `alias`, `args`, `with_hints`, `version`,
`partitions`, `with_ordinality`, `partiql`). -/
inductive TableFactor where
  | Table (name : ObjectName) («alias» : Option TableAlias)
      (args : Option FunctionArgs) (with_hints : List Expr)
      (version : Option TableVersion) (partitions : List Ident)
      (with_ordinality : Bool) (partiql : Option Expr)
deriving DecidableEq, Repr

/-- Modelled from the spec: one `FROM` item — a relation and its joins. -/
structure TableWithJoins where
  relation : TableFactor
  joins : List Join
deriving DecidableEq, Repr

/-- Modelled from the spec: the parts of a `SELECT` the claims inspect — the
projection list and the `FROM` list. -/
structure Select where
  projection : List SelectItem
  «from» : List TableWithJoins
deriving DecidableEq, Repr

/-- Modelled from the spec (section 4.4): rendering of an expression —
identifiers by their quote style, compound identifiers dot-separated. -/
def displayExpr : Expr → String
  | Expr.Identifier i => displayIdent i
  | Expr.CompoundIdentifier parts =>
      String.intercalate "." (parts.map displayIdent)

/-- Modelled from the spec (section 4.4): rendering of a projection item. -/
def displaySelectItem : SelectItem → String
  | SelectItem.UnnamedExpr e => displayExpr e

/-- Modelled from the spec (section 4.4): rendering of a table factor; the
optional clauses (alias, hints, ...) that no claim populates are elided. -/
def displayTableFactor : TableFactor → String
  | TableFactor.Table name _ _ _ _ _ _ _ => displayObjectName name

/-- Modelled from the spec (section 4.4): rendering of a `SELECT` — the
comma-separated projection, then ` FROM ` and the comma-separated relations
(joins, absent from every claim, are elided). -/
def displaySelect (s : Select) : String :=
  "SELECT " ++ String.intercalate ", " (s.projection.map displaySelectItem) ++
  " FROM " ++
  String.intercalate ", "
    (s.«from».map (fun t => displayTableFactor t.relation))

/-- A character that may appear in an unquoted identifier: letter, digit or
underscore (spec section 4.2). -/
def isIdentPartCh (c : Char) : Bool :=
  c.isAlphanum || c = '_'

/-- Modelled from the spec (sections 4.1 and 4.2): under the Redshift
dialect, `[` opens a delimited identifier closed by the matching `]`, and the
identifier records `[` as its quote style; otherwise an unquoted identifier
is the longest run of identifier characters. -/
def parseIdentTok : List Char → Option (Ident × List Char)
  | '[' :: cs =>
      (match cs.dropWhile (fun c => !(c = ']')) with
       | ']' :: rest =>
           some (⟨(cs.takeWhile (fun c => !(c = ']'))).asString, some '['⟩, rest)
       | _ => none)
  | cs =>
      let v := cs.takeWhile isIdentPartCh
      if v.isEmpty then none
      else some (⟨v.asString, none⟩, cs.dropWhile isIdentPartCh)

/-- Modelled from the spec: the dotted tail of an object name — while the
next character is `.`, expect another identifier.  Recursion is bounded by
the remaining stream length. -/
def parseObjectNameAux : Nat → List Ident → List Char →
    Option (List Ident × List Char)
  | fuel + 1, acc, '.' :: cs =>
      (match parseIdentTok cs with
       | some (i, rest) => parseObjectNameAux fuel (i :: acc) rest
       | none => none)
  | _, acc, cs => some (acc.reverse, cs)

/-- Modelled from the spec: an object name — an identifier followed by zero
or more `.`-separated identifiers. -/
def parseObjectName (cs : List Char) : Option (ObjectName × List Char) :=
  match parseIdentTok cs with
  | some (i, rest) =>
      (match parseObjectNameAux rest.length [i] rest with
       | some (is, rest') => some (⟨is⟩, rest')
       | none => none)
  | none => none

/-- Consume an expected literal prefix of characters, returning the rest of
the stream, or nothing on a mismatch. -/
def dropPrefixChars : List Char → List Char → Option (List Char)
  | [], cs => some cs
  | _ :: _, [] => none
  | p :: ps, c :: cs => if c = p then dropPrefixChars ps cs else none

/-- Modelled from the spec (scenario S1 and section 4.3): the fragment of the
SELECT parser that scenario S1 exercises — `SELECT <ident> FROM
<object_name>`, with Redshift bracket quoting, a single projection item and a
single `FROM` relation with no alias, hints, version, partitions, ordinality
or joins. -/
def parseSelectRedshift (input : String) : Option Select :=
  match dropPrefixChars "SELECT ".toList input.toList with
  | none => none
  | some cs =>
    match parseIdentTok cs with
    | none => none
    | some (proj, cs1) =>
      match dropPrefixChars " FROM ".toList cs1 with
      | none => none
      | some cs2 =>
        match parseObjectName cs2 with
        | some (n, []) =>
            some { projection := [SelectItem.UnnamedExpr (Expr.Identifier proj)],
                   «from» := [{ relation :=
                                  TableFactor.Table n none none [] none [] false none,
                                joins := [] }] }
        | _ => none

/-- Split a character stream into its space-separated words. -/
def wordsAux : List Char → List Char → List String
  | [], cur => if cur.isEmpty then [] else [cur.reverse.asString]
  | c :: cs, cur =>
      if c = ' ' then
        if cur.isEmpty then wordsAux cs []
        else cur.reverse.asString :: wordsAux cs []
      else wordsAux cs (c :: cur)

/-- Modelled from the spec (scenario S6 and section 4.3): the fragment of the
ALTER TABLE parser that scenario S6 exercises — `ALTER TABLE <table> DROP
CONSTRAINT [IF EXISTS] <name> [CASCADE | RESTRICT]`, yielding the table name
and the `DropConstraint` operation. -/
def parseAlterDropConstraint (input : String) :
    Option (ObjectName × AlterTableOperation) :=
  match wordsAux input.toList [] with
  | "ALTER" :: "TABLE" :: tbl :: "DROP" :: "CONSTRAINT" :: rest =>
    let ifRest : Bool × List String :=
      match rest with
      | "IF" :: "EXISTS" :: r => (true, r)
      | r => (false, r)
    (match ifRest.2 with
     | [nm] =>
         some (ObjectName.from [Ident.new tbl],
           AlterTableOperation.DropConstraint ifRest.1 (Ident.new nm) none)
     | [nm, "CASCADE"] =>
         some (ObjectName.from [Ident.new tbl],
           AlterTableOperation.DropConstraint ifRest.1 (Ident.new nm)
             (some DropBehavior.Cascade))
     | [nm, "RESTRICT"] =>
         some (ObjectName.from [Ident.new tbl],
           AlterTableOperation.DropConstraint ifRest.1 (Ident.new nm)
             (some DropBehavior.Restrict))
     | _ => none)
  | _ => none

/-- Modelled from the spec (section 4.4): rendering of an `ALTER TABLE`
statement around one operation — `ALTER TABLE <name> <operation>` (the
operation itself renders through the visible `ast/ddl.rs` serializer). -/
def displayAlterTableStmt (name : ObjectName) (op : AlterTableOperation) :
    String :=
  "ALTER TABLE " ++ displayObjectName name ++ " " ++
    displayAlterTableOperation op

/-! ## Helper lemmas -/

/-- The digit-consuming loop of `next_token` takes exactly the longest digit
prefix and leaves the rest of the stream. -/
theorem takeDigits_eq (l : List Char) :
    takeDigits l = (l.takeWhile isDigitCh, l.dropWhile isDigitCh) := by
  induction l with
  | nil => rfl
  | cons c cs ih =>
      cases h : isDigitCh c
      · simp [takeDigits, h, List.takeWhile_cons, List.dropWhile_cons]
      · simp [takeDigits, h, ih, List.takeWhile_cons, List.dropWhile_cons]

/-- An ASCII digit is not one of the whitespace characters. -/
theorem digit_not_whitespace (c : Char) (h : isDigitCh c = true) :
    isWhitespaceCh c = false := by
  cases hsp : isWhitespaceCh c
  · rfl
  · exfalso
    have hmem : (c = ' ' ∨ c = '\t') ∨ c = '\n' := by
      simpa [isWhitespaceCh] using hsp
    rcases hmem with (rfl | rfl) | rfl <;> exact absurd h (by decide)

/-- Character data of a string concatenation. -/
theorem toList_append (a b : String) : (a ++ b).toList = a.toList ++ b.toList :=
  rfl

/-! ## Claim theorems -/

/-- C1: `CreateTableBuilder::validate_schema_info` returns true iff exactly
one of the four schema sources is populated — `columns` non-empty, `query`
present, `like` present, or `clone` present — and false when zero or when
two or more are populated. -/
theorem validate_schema_info_iff_exactly_one (b : CreateTableBuilder) :
    b.validate_schema_info = true ↔
      ((b.columns.isEmpty = false ∧ b.query.isSome = false ∧
          b.like.isSome = false ∧ b.clone.isSome = false) ∨
       (b.columns.isEmpty = true ∧ b.query.isSome = true ∧
          b.like.isSome = false ∧ b.clone.isSome = false) ∨
       (b.columns.isEmpty = true ∧ b.query.isSome = false ∧
          b.like.isSome = true ∧ b.clone.isSome = false) ∨
       (b.columns.isEmpty = true ∧ b.query.isSome = false ∧
          b.like.isSome = false ∧ b.clone.isSome = true)) := by
  unfold CreateTableBuilder.validate_schema_info
  cases hc : b.columns.isEmpty <;> cases hq : b.query.isSome <;>
    cases hl : b.like.isSome <;> cases hk : b.clone.isSome <;> simp_all

/-- C2 counterexample: a builder with zero schema sources (a fresh
`CreateTableBuilder::new`) fails `validate_schema_info`, yet `build()` still
returns a `Statement::CreateTable` — `build` never checks the invariant, so
the claim that it yields a `CreateTable` only when the invariant holds is
false. -/
theorem build_skips_validation_cex :
    (CreateTableBuilder.new
        (ObjectName.from [Ident.new "t"])).validate_schema_info = false ∧
    isCreateTable
      ((CreateTableBuilder.new (ObjectName.from [Ident.new "t"])).build) =
        true := by
  exact ⟨rfl, rfl⟩

/-- C2 (amended): `CreateTableBuilder::build` performs no validation — every
builder, including one whose schema-source invariant fails, is silently
turned into a `Statement::CreateTable`; no invariant violation is ever
reported by `build`. -/
theorem build_unconditionally_creates (b : CreateTableBuilder)
    (h : b.validate_schema_info = false) :
    isCreateTable b.build = true := rfl

/-- C2 witness: the amended theorem applied to a fresh builder with zero
schema sources. -/
theorem build_unconditionally_creates_witness :
    isCreateTable
      ((CreateTableBuilder.new (ObjectName.from [Ident.new "t"])).build) =
        true :=
  build_unconditionally_creates
    (CreateTableBuilder.new (ObjectName.from [Ident.new "t"])) rfl

/-- C3: converting a built statement back with
`CreateTableBuilder::try_from` succeeds and returns the original builder —
`try_from` after `build` is the identity, every field (including `volatile`
and `iceberg`) propagated. -/
theorem try_from_build_roundtrip (b : CreateTableBuilder) :
    CreateTableBuilder.try_from b.build = Except.ok b := rfl

/-- C4: `ALTER TABLE t DROP CONSTRAINT IF EXISTS c CASCADE` parses into
`DropConstraint { if_exists: true, name: c, drop_behavior: Some(Cascade) }`,
the statement serializes back to the same text, and the `Display` of the
operation alone is `DROP CONSTRAINT IF EXISTS c CASCADE`. -/
theorem alter_drop_constraint_roundtrip :
    parseAlterDropConstraint "ALTER TABLE t DROP CONSTRAINT IF EXISTS c CASCADE" =
      some (ObjectName.from [Ident.new "t"],
        AlterTableOperation.DropConstraint true (Ident.new "c")
          (some DropBehavior.Cascade)) ∧
    displayAlterTableStmt (ObjectName.from [Ident.new "t"])
        (AlterTableOperation.DropConstraint true (Ident.new "c")
          (some DropBehavior.Cascade)) =
      "ALTER TABLE t DROP CONSTRAINT IF EXISTS c CASCADE" ∧
    displayAlterTableOperation
        (AlterTableOperation.DropConstraint true (Ident.new "c")
          (some DropBehavior.Cascade)) =
      "DROP CONSTRAINT IF EXISTS c CASCADE" := by
  refine ⟨?_, ?_, ?_⟩ <;> rfl

/-- C5: `CreateTableBuilder::try_from` on any statement that is not a
`Statement::CreateTable` fails with a `ParserError` whose message contains
the substring `Expected create table statement`; it never succeeds. -/
theorem try_from_non_create_table (s : Statement)
    (h : isCreateTable s = false) :
    ∃ msg,
      CreateTableBuilder.try_from s =
        Except.error (ParserError.ParserError msg) ∧
      "Expected create table statement".toList <:+: msg.toList := by
  cases s with
  | CreateTable ct => exact absurd h (by simp [isCreateTable])
  | Commit chain endTx m =>
      refine ⟨_, rfl, List.IsPrefix.isInfix ?_⟩
      rw [toList_append]
      exact List.IsPrefix.trans (by decide) (List.prefix_append _ _)

/-- C5 witness: the theorem applied to the `COMMIT` statement of the visible
builder test. -/
theorem try_from_non_create_table_witness :
    ∃ msg,
      CreateTableBuilder.try_from (Statement.Commit false false none) =
        Except.error (ParserError.ParserError msg) ∧
      "Expected create table statement".toList <:+: msg.toList :=
  try_from_non_create_table (Statement.Commit false false none) rfl

/-- C6 counterexample: tokenizing `7?`, the first `next_token` call consumes
the literal `7`; the second call meets `?`, which sits at source index 1 —
line 0, column 1 — yet the error it returns records `Position::new(0, 0)`.
The recorded position is not the position at which the offending character
was detected (under a one-based convention the mismatch is the same, since
the recorded position is the constant `(0, 0)`). -/
theorem tokenizer_error_position_cex :
    next_token ((next_token ['7', '?']).2) =
      (Except.error (TokenizerError.UnexpectedChar '?' (Position.new 0 0)),
        ([] : List Char)) ∧
    posOfIndex ['7', '?'] 1 = Position.new 0 1 ∧
    Position.new 0 0 ≠ Position.new 0 1 := by
  refine ⟨rfl, rfl, by decide⟩

/-- C6 (amended): when `GenericTokenizer::next_token` meets a character that
is not whitespace, not an ASCII digit and not one of `+ - * /`, it returns an
`UnexpectedChar` error carrying that character and the constant position
`Position::new(0, 0)`, regardless of where the character occurred in the
source. -/
theorem next_token_unexpected_char (c : Char) (cs : List Char)
    (hw : isWhitespaceCh c = false) (hd : isDigitCh c = false)
    (hp : c ≠ '+') (hm : c ≠ '-') (ht : c ≠ '*') (hs : c ≠ '/') :
    next_token (c :: cs) =
      (Except.error (TokenizerError.UnexpectedChar c (Position.new 0 0)), cs) := by
  simp [next_token, hw, hd, hp, hm, ht, hs]

/-- C6 witness: the amended theorem applied to `?` followed by `x`. -/
theorem next_token_unexpected_char_witness :
    next_token ['?', 'x'] =
      (Except.error (TokenizerError.UnexpectedChar '?' (Position.new 0 0)),
        ['x']) :=
  next_token_unexpected_char '?' ['x'] (by decide) (by decide) (by decide)
    (by decide) (by decide) (by decide)

/-- C7: `SELECT [col1] FROM [test_schema].[test_table]` under the Redshift
dialect parses to a SELECT whose single projection is the identifier `col1`
with quote style `[` and whose single FROM item is an `ObjectName` of the two
`[`-quoted idents `test_schema` and `test_table`; serializing that AST
reproduces the input byte for byte. -/
theorem redshift_bracket_roundtrip :
    parseSelectRedshift "SELECT [col1] FROM [test_schema].[test_table]" =
      some { projection :=
               [SelectItem.UnnamedExpr (Expr.Identifier ⟨"col1", some '['⟩)],
             «from» :=
               [{ relation :=
                    TableFactor.Table
                      (ObjectName.from
                        [⟨"test_schema", some '['⟩, ⟨"test_table", some '['⟩])
                      none none [] none [] false none,
                  joins := [] }] } ∧
    displaySelect
        { projection :=
            [SelectItem.UnnamedExpr (Expr.Identifier ⟨"col1", some '['⟩)],
          «from» :=
            [{ relation :=
                 TableFactor.Table
                   (ObjectName.from
                     [⟨"test_schema", some '['⟩, ⟨"test_table", some '['⟩])
                   none none [] none [] false none,
               joins := [] }] } =
      "SELECT [col1] FROM [test_schema].[test_table]" := by
  exact ⟨rfl, rfl⟩

/-- C8: the builder constructed with name `table_name`, `if_not_exists` set
and a single column `c1 INT`, built and serialized, yields exactly
`CREATE TABLE IF NOT EXISTS table_name (c1 INT)`. -/
theorem builder_doc_example :
    displayStatement
      ((Setters.columns
          (Setters.if_not_exists
            (CreateTableBuilder.new (ObjectName.from [Ident.new "table_name"]))
            true)
          [{ name := Ident.new "c1", data_type := DataType.Int none,
             options := [] }]).build) =
      "CREATE TABLE IF NOT EXISTS table_name (c1 INT)" := rfl

/-- C9: on a stream whose next character is an ASCII digit, `next_token`
returns `Ok(Some(Literal(s)))` where `s` is exactly the maximal run of
digits from that character, consuming exactly those characters and leaving
the first non-digit for the next call; on an exhausted stream it returns
`Ok(None)`. -/
theorem next_token_digit_run :
    (∀ c cs, isDigitCh c = true →
      next_token (c :: cs) =
        (Except.ok (some (SQLToken.Literal ((c :: cs).takeWhile isDigitCh))),
          (c :: cs).dropWhile isDigitCh)) ∧
    next_token ([] : List Char) = (Except.ok none, []) := by
  refine ⟨fun c cs h => ?_, rfl⟩
  have hw := digit_not_whitespace c h
  simp [next_token, hw, h, takeDigits_eq, List.takeWhile_cons,
    List.dropWhile_cons]

/-- C9 witness: the theorem applied to the stream `12a` — the literal `12` is
produced and `a` is left unconsumed. -/
theorem next_token_digit_run_witness :
    next_token ['1', '2', 'a'] =
      (Except.ok (some (SQLToken.Literal ['1', '2'])), ['a']) := by
  have h := next_token_digit_run.1 '1' ['2', 'a'] (by decide)
  exact h.trans rfl

/-- C10: every fluent setter of `CreateTableBuilder` returns a builder equal
to its receiver in every field except the one field the setter names, which
becomes exactly the argument value. -/
theorem setters_single_field_update :
    (∀ b v, Setters.or_replace b v = { b with or_replace := v }) ∧
    (∀ b v, Setters.temporary b v = { b with temporary := v }) ∧
    (∀ b v, Setters.external b v = { b with external := v }) ∧
    (∀ b v, Setters.global b v = { b with global := v }) ∧
    (∀ b v, Setters.if_not_exists b v = { b with if_not_exists := v }) ∧
    (∀ b v, Setters.transient b v = { b with transient := v }) ∧
    (∀ b v, Setters.volatile b v = { b with volatile := v }) ∧
    (∀ b v, Setters.iceberg b v = { b with iceberg := v }) ∧
    (∀ b v, Setters.columns b v = { b with columns := v }) ∧
    (∀ b v, Setters.constraints b v = { b with constraints := v }) ∧
    (∀ b v, Setters.hive_distribution b v = { b with hive_distribution := v }) ∧
    (∀ b v, Setters.hive_formats b v = { b with hive_formats := v }) ∧
    (∀ b v, Setters.file_format b v = { b with file_format := v }) ∧
    (∀ b v, Setters.location b v = { b with location := v }) ∧
    (∀ b v, Setters.query b v = { b with query := v }) ∧
    (∀ b v, Setters.without_rowid b v = { b with without_rowid := v }) ∧
    (∀ b v, Setters.like b v = { b with like := v }) ∧
    (∀ b v, Setters.clone_clause b v = { b with clone := v }) ∧
    (∀ b v, Setters.comment_after_column_def b v = { b with comment := v }) ∧
    (∀ b v, Setters.on_commit b v = { b with on_commit := v }) ∧
    (∀ b v, Setters.on_cluster b v = { b with on_cluster := v }) ∧
    (∀ b v, Setters.primary_key b v = { b with primary_key := v }) ∧
    (∀ b v, Setters.order_by b v = { b with order_by := v }) ∧
    (∀ b v, Setters.partition_by b v = { b with partition_by := v }) ∧
    (∀ b v, Setters.cluster_by b v = { b with cluster_by := v }) ∧
    (∀ b v, Setters.clustered_by b v = { b with clustered_by := v }) ∧
    (∀ b v, Setters.inherits b v = { b with inherits := v }) ∧
    (∀ b v, Setters.strict b v = { b with strict := v }) ∧
    (∀ b v, Setters.copy_grants b v = { b with copy_grants := v }) ∧
    (∀ b v, Setters.enable_schema_evolution b v =
      { b with enable_schema_evolution := v }) ∧
    (∀ b v, Setters.change_tracking b v = { b with change_tracking := v }) ∧
    (∀ b v, Setters.data_retention_time_in_days b v =
      { b with data_retention_time_in_days := v }) ∧
    (∀ b v, Setters.max_data_extension_time_in_days b v =
      { b with max_data_extension_time_in_days := v }) ∧
    (∀ b v, Setters.default_ddl_collation b v =
      { b with default_ddl_collation := v }) ∧
    (∀ b v, Setters.with_aggregation_policy b v =
      { b with with_aggregation_policy := v }) ∧
    (∀ b v, Setters.with_row_access_policy b v =
      { b with with_row_access_policy := v }) ∧
    (∀ b v, Setters.with_tags b v = { b with with_tags := v }) ∧
    (∀ b v, Setters.base_location b v = { b with base_location := v }) ∧
    (∀ b v, Setters.external_volume b v = { b with external_volume := v }) ∧
    (∀ b v, Setters.catalog b v = { b with catalog := v }) ∧
    (∀ b v, Setters.catalog_sync b v = { b with catalog_sync := v }) ∧
    (∀ b v, Setters.storage_serialization_policy b v =
      { b with storage_serialization_policy := v }) ∧
    (∀ b v, Setters.table_options b v = { b with table_options := v }) :=
  ⟨fun _ _ => rfl, fun _ _ => rfl, fun _ _ => rfl, fun _ _ => rfl,
   fun _ _ => rfl, fun _ _ => rfl, fun _ _ => rfl, fun _ _ => rfl,
   fun _ _ => rfl, fun _ _ => rfl, fun _ _ => rfl, fun _ _ => rfl,
   fun _ _ => rfl, fun _ _ => rfl, fun _ _ => rfl, fun _ _ => rfl,
   fun _ _ => rfl, fun _ _ => rfl, fun _ _ => rfl, fun _ _ => rfl,
   fun _ _ => rfl, fun _ _ => rfl, fun _ _ => rfl, fun _ _ => rfl,
   fun _ _ => rfl, fun _ _ => rfl, fun _ _ => rfl, fun _ _ => rfl,
   fun _ _ => rfl, fun _ _ => rfl, fun _ _ => rfl, fun _ _ => rfl,
   fun _ _ => rfl, fun _ _ => rfl, fun _ _ => rfl, fun _ _ => rfl,
   fun _ _ => rfl, fun _ _ => rfl, fun _ _ => rfl, fun _ _ => rfl,
   fun _ _ => rfl, fun _ _ => rfl, fun _ _ => rfl⟩

end SqlparserRs
